import Mathlib

/-!
Verification of the bloggo0 repository: a home page view rendering
authentication-dependent content, and a startup routine provisioning
OAuth social-login credentials from a dotenv-style file or the process
environment.  The data model and operations below are a shallow
embedding of the source; parts of the repository whose code is not in
the source tree (the signals module, the URL configuration and the
home template, which are exercised by the tests) are modelled from the
specification, as marked on each definition.
-/

/-- Configuration sources visible to the configuration reader: an
optional local .env.local file parsed into KEY=VALUE pairs (none when
the file is absent), plus the process environment variables. -/
structure ConfigEnv where
  envLocal : Option (List (String × String))
  environ : List (String × String)
deriving Repr

/-- Uppercasing of a parameter name, character by character, as the
str upper method does for ASCII keys. -/
def toUpperStr (s : String) : String := ⟨s.data.map Char.toUpper⟩

/-- Modelled from the spec: the signals module's helper
`_read_config_parameter` is not in the source tree. Per the spec it
looks a key up case-insensitively by uppercasing it, preferring the
optional local KEY=VALUE file over process environment variables. -/
def _read_config_parameter (env : ConfigEnv) (param_name : String) : Option String :=
  let key := toUpperStr param_name
  match env.envLocal with
  | some fileVars =>
    match fileVars.lookup key with
    | some v => some v
    | none => env.environ.lookup key
  | none => env.environ.lookup key

/-- One OAuth provider entry of SOCIAL_LOGIN_PROVIDERS: a display
name, and client id / client secret values each of which may be
absent. -/
structure Provider where
  name : String
  client_id : Option String
  client_secret : Option String
deriving Repr, DecidableEq

/-- A stored social-application record: keyed by provider, holding the
display name, client id and secret, and the ids of the attached
sites. -/
structure SocialApp where
  provider : String
  name : String
  client_id : String
  secret : String
  sites : List Nat
deriving Repr, DecidableEq

/-- Result of one run of the configuration routine: the resulting
social-application records, the status lines printed, and a trace of
the database operations performed. -/
structure RunResult where
  apps : List SocialApp
  prints : List String
  dbOps : List String
deriving Repr, DecidableEq

/-- Modelled from the spec: the recognized placeholder credential
values the configuration routine skips (the values the test suite
exercises). -/
def PLACEHOLDER_VALUES : List String :=
  ["your_google_client_id", "your_google_client_secret"]

/-- Look up the social-application record stored for a provider. -/
def findApp (apps : List SocialApp) (prov : String) : Option SocialApp :=
  apps.find? (fun a => a.provider == prov)

/-- Attach a site to the record stored for a provider (idempotent, as
a many-to-many add is). -/
def addSite (apps : List SocialApp) (prov : String) (site : Nat) : List SocialApp :=
  apps.map (fun a =>
    if a.provider == prov then
      { a with sites := if site ∈ a.sites then a.sites else a.sites ++ [site] }
    else a)

/-- Modelled from the spec: processing of a single provider entry by
`configure_social_apps` (the signals module is not in the source
tree).  Skip when the client id or secret is absent, skip when either
equals a recognized placeholder, otherwise get-or-create the record
keyed by provider (updating and saving name, client id and secret when
it already exists) and attach the current site.  Returns the updated
records, the status lines, and the database-operation trace. -/
def processProvider (site : Nat) (key : String) (p : Provider) (apps : List SocialApp) :
    List SocialApp × List String × List String :=
  match p.client_id, p.client_secret with
  | some cid, some cs =>
    if cid ∈ PLACEHOLDER_VALUES ∨ cs ∈ PLACEHOLDER_VALUES then
      (apps, ["Skipping " ++ p.name ++ " - placeholder credentials detected"], [])
    else
      match findApp apps key with
      | none =>
        let newApp : SocialApp := ⟨key, p.name, cid, cs, []⟩
        (addSite (apps ++ [newApp]) key site,
         ["Created " ++ p.name ++ " SocialApp"],
         ["get_or_create " ++ key, "add_site " ++ key])
      | some _ =>
        let updated := apps.map (fun a =>
          if a.provider == key then
            { a with name := p.name, client_id := cid, secret := cs }
          else a)
        (addSite updated key site,
         ["Updated " ++ p.name ++ " SocialApp"],
         ["get_or_create " ++ key, "save " ++ key, "add_site " ++ key])
  | _, _ =>
    (apps, ["Skipping " ++ p.name ++ " - credentials not provided"], [])

/-- Modelled from the spec: `configure_social_apps` (the signals
module is not in the source tree).  Guarded to run only when the
startup event's sender is this application; otherwise it returns
without touching the database.  When it runs, it gets or creates the
site record, processes each provider entry in order, and prints a
final completion line. -/
def configure_social_apps (sender_name : String) (providers : List (String × Provider))
    (apps : List SocialApp) : RunResult :=
  if sender_name ≠ "django_app" then ⟨apps, [], []⟩
  else
    let site := 1
    let init : RunResult := ⟨apps, [], ["Site.objects.get_or_create"]⟩
    let r := providers.foldl (fun acc kv =>
      let step := processProvider site kv.1 kv.2 acc.apps
      ⟨step.1, acc.prints ++ step.2.1, acc.dbOps ++ step.2.2⟩) init
    ⟨r.apps, r.prints ++ ["SocialApp configuration completed"], r.dbOps⟩

/-- Modelled from the spec: the provider table as built by the signals
module, reading the Google credentials through the configuration
reader. -/
def SOCIAL_LOGIN_PROVIDERS (env : ConfigEnv) : List (String × Provider) :=
  [("google",
    { name := "Google",
      client_id := _read_config_parameter env "google_client_id",
      client_secret := _read_config_parameter env "google_client_secret" })]

/-- A site user as the view and template see one: first name and
email, each possibly empty (Django CharFields default to the empty
string). -/
structure SiteUser where
  first_name : String
  email : String
deriving Repr, DecidableEq

/-- An HTTP request as the home view sees it: the session middleware
supplies the authenticated-user indicator (none for an anonymous
session). -/
structure HttpRequest where
  path : String
  user : Option SiteUser
deriving Repr, DecidableEq

/-- An HTTP response: status code, the template the body was rendered
from, and the rendered document as its list of content fragments. -/
structure HttpResponse where
  status : Nat
  templateName : String
  body : List String
deriving Repr, DecidableEq

/-- Modelled from the spec: the greeting the home template picks for
an authenticated user, by first name, falling back to email, falling
back to a generic greeting. -/
def home_greeting (u : SiteUser) : String :=
  if u.first_name ≠ "" then u.first_name
  else if u.email ≠ "" then u.email
  else "there"

/-- Modelled from the spec: the home.html template (not in the source
tree), rendered against the authenticated-user indicator, as its list
of content fragments. -/
def renderHomeTemplate (user : Option SiteUser) : List String :=
  ["Welcome to", "Bloggo", "A simple and elegant blogging platform"] ++
  match user with
  | some u =>
    ["Hello, " ++ (home_greeting u ++ "!"), "Authentication Status: Logged In"]
  | none =>
    ["Authentication Status: Anonymous", "You are not logged in",
     "Get Started with Google", "google_login"]

/-- The framework's template dispatch: rendering a named template
against the request user and an extra context.  The home template
references no extra-context variable, so the context argument does not
influence its output. -/
def renderTemplate (templateName : String) (user : Option SiteUser)
    (_ctx : List (String × String)) : List String :=
  if templateName = "home.html" then renderHomeTemplate user else []

/-- The framework's render shortcut: a 200 response whose body is the
named template rendered against the request. -/
def render (request : HttpRequest) (templateName : String)
    (ctx : List (String × String)) : HttpResponse :=
  ⟨200, templateName, renderTemplate templateName request.user ctx⟩

/-- The home view of django_app/views.py: it renders home.html with
no context beyond the request. -/
def home (request : HttpRequest) : HttpResponse :=
  render request "home.html" []

/-- Modelled from the spec: the URL configuration (not in the source
tree) exposes one route, at the root path, served by the home view. -/
def urlpatterns : List (String × (HttpRequest → HttpResponse)) :=
  [("/", home)]

/-! Helper lemmas: two strings whose first characters differ are
distinct, even when one or both have a variable tail appended. -/

/-- The head character of a string append is the head of the left part
when that part is nonempty. -/
theorem head_of_append (a k : String) (c : Char) (ha : a.data.head? = some c) :
    (a ++ k).data.head? = some c := by
  rw [String.data_append]
  cases hd : a.data with
  | nil => rw [hd] at ha; cases ha
  | cons x t => rw [hd] at ha; simp at ha; simp [hd, ha]

/-- Strings whose data lists have distinct head characters are
distinct. -/
theorem ne_of_head_ne (x y : String) (c d : Char) (hx : x.data.head? = some c)
    (hy : y.data.head? = some d) (hcd : c ≠ d) : x ≠ y := by
  intro h
  apply hcd
  have h2 : x.data.head? = y.data.head? := by rw [h]
  rw [hx, hy] at h2
  exact Option.some.inj h2

/-- The login-prompt line never coincides with the greeting line. -/
theorem not_logged_ne_hello (x : String) :
    "You are not logged in" ≠ "Hello, " ++ x :=
  ne_of_head_ne _ _ 'Y' 'H' rfl (head_of_append _ _ _ rfl) (by decide)

/-- The login call-to-action never coincides with the greeting line. -/
theorem get_started_ne_hello (x : String) :
    "Get Started with Google" ≠ "Hello, " ++ x :=
  ne_of_head_ne _ _ 'G' 'H' rfl (head_of_append _ _ _ rfl) (by decide)

/-- The site operation trace entry is never a site-attachment entry. -/
theorem site_op_ne_add_site (k : String) :
    "Site.objects.get_or_create" ≠ "add_site " ++ k :=
  ne_of_head_ne _ _ 'S' 'a' rfl (head_of_append _ _ _ rfl) (by decide)

/-- A get-or-create trace entry is never a site-attachment entry. -/
theorem get_or_create_ne_add_site (k l : String) :
    "get_or_create " ++ k ≠ "add_site " ++ l :=
  ne_of_head_ne _ _ 'g' 'a' (head_of_append _ _ _ rfl) (head_of_append _ _ _ rfl)
    (by decide)

/-- A save trace entry is never a site-attachment entry. -/
theorem save_ne_add_site (k l : String) :
    "save " ++ k ≠ "add_site " ++ l :=
  ne_of_head_ne _ _ 's' 'a' (head_of_append _ _ _ rfl) (head_of_append _ _ _ rfl)
    (by decide)

/-- Claim C5: the configuration reader uppercases the key, prefers the
value the .env.local file gives it, and otherwise (file absent or key
not in it) falls back to the process environment; lookups are
case-insensitive in the parameter name. -/
theorem read_config_lookup_order (env : ConfigEnv) (p q : String)
    (file : List (String × String)) (v : String) :
    (env.envLocal = some file → file.lookup (toUpperStr p) = some v →
      _read_config_parameter env p = some v) ∧
    (env.envLocal = some file → file.lookup (toUpperStr p) = none →
      _read_config_parameter env p = env.environ.lookup (toUpperStr p)) ∧
    (env.envLocal = none →
      _read_config_parameter env p = env.environ.lookup (toUpperStr p)) ∧
    (toUpperStr p = toUpperStr q →
      _read_config_parameter env p = _read_config_parameter env q) := by
  refine ⟨?_, ?_, ?_, ?_⟩
  · intro h1 h2; simp [_read_config_parameter, h1, h2]
  · intro h1 h2; simp [_read_config_parameter, h1, h2]
  · intro h1; simp [_read_config_parameter, h1]
  · intro h1; simp [_read_config_parameter, h1]

/-- Witness for C5 at concrete inputs: a key defined in the file wins
over the environment; a key missing from the file falls back; with no
file the environment is used; lowercase and uppercase parameter names
agree. -/
theorem read_config_lookup_order_witness :
    _read_config_parameter ⟨some [("TEST_PARAM", "value_from_env_local")],
        [("TEST_PARAM", "env_value")]⟩ "test_param" = some "value_from_env_local" ∧
    _read_config_parameter ⟨some [("OTHER", "a")], [("TEST_PARAM", "env_value")]⟩
        "test_param" = some "env_value" ∧
    _read_config_parameter ⟨none, [("TEST_PARAM", "env_value")]⟩ "test_param" =
        some "env_value" ∧
    _read_config_parameter ⟨none, [("CASE_TEST", "test_value")]⟩ "case_test" =
        _read_config_parameter ⟨none, [("CASE_TEST", "test_value")]⟩ "Case_Test" :=
  ⟨(read_config_lookup_order ⟨some [("TEST_PARAM", "value_from_env_local")],
        [("TEST_PARAM", "env_value")]⟩ "test_param" "x"
        [("TEST_PARAM", "value_from_env_local")] "value_from_env_local").1
      rfl (by decide),
   ((read_config_lookup_order ⟨some [("OTHER", "a")], [("TEST_PARAM", "env_value")]⟩
        "test_param" "x" [("OTHER", "a")] "a").2.1 rfl (by decide)).trans (by decide),
   ((read_config_lookup_order ⟨none, [("TEST_PARAM", "env_value")]⟩
        "test_param" "x" [] "a").2.2.1 rfl).trans (by decide),
   (read_config_lookup_order ⟨none, [("CASE_TEST", "test_value")]⟩
        "case_test" "Case_Test" [] "a").2.2.2 (by decide)⟩

/-- Claim C8: a key absent from both the file and the environment
makes the reader return none rather than fail, and a provider whose
client id came back none is skipped with the credentials-not-provided
reason, with no social-application database operation. -/
theorem read_config_absent_none (env : ConfigEnv) (apps : List SocialApp)
    (hfile : ∀ file, env.envLocal = some file →
      file.lookup "GOOGLE_CLIENT_ID" = none)
    (henv : env.environ.lookup "GOOGLE_CLIENT_ID" = none) :
    _read_config_parameter env "google_client_id" = none ∧
    configure_social_apps "django_app" (SOCIAL_LOGIN_PROVIDERS env) apps =
      ⟨apps, ["Skipping Google - credentials not provided",
              "SocialApp configuration completed"],
       ["Site.objects.get_or_create"]⟩ := by
  have hkey : toUpperStr "google_client_id" = "GOOGLE_CLIENT_ID" := by decide
  have hnone : _read_config_parameter env "google_client_id" = none := by
    cases hc : env.envLocal with
    | none => simp [_read_config_parameter, hc, hkey, henv]
    | some file => simp [_read_config_parameter, hc, hkey, hfile file hc, henv]
  refine ⟨hnone, ?_⟩
  simp [configure_social_apps, SOCIAL_LOGIN_PROVIDERS, processProvider, hnone]

/-- Witness for C8: with no file and an environment that does not
define the key, the reader returns none and the run skips Google. -/
theorem read_config_absent_none_witness :
    _read_config_parameter ⟨none, []⟩ "google_client_id" = none ∧
    configure_social_apps "django_app" (SOCIAL_LOGIN_PROVIDERS ⟨none, []⟩) [] =
      ⟨[], ["Skipping Google - credentials not provided",
            "SocialApp configuration completed"],
       ["Site.objects.get_or_create"]⟩ :=
  read_config_absent_none ⟨none, []⟩ [] (fun file hf => by cases hf) rfl

/-- Claim C6: when the startup event's sender is not this application,
the routine returns with the records untouched, nothing printed, and
an empty database-operation trace. -/
theorem configure_ignores_other_sender (sender : String)
    (providers : List (String × Provider)) (apps : List SocialApp)
    (h : sender ≠ "django_app") :
    configure_social_apps sender providers apps = ⟨apps, [], []⟩ := by
  simp [configure_social_apps, h]

/-- Witness for C6 at a concrete foreign sender. -/
theorem configure_ignores_other_sender_witness :
    configure_social_apps "other_app"
      [("google", ⟨"Google", some "id", some "secret"⟩)]
      [] = ⟨[], [], []⟩ :=
  configure_ignores_other_sender "other_app"
    [("google", ⟨"Google", some "id", some "secret"⟩)] [] (by decide)

/-- Claim C2: a provider entry with an absent client id or secret, or
with recognized placeholder values, is skipped with the matching
reason line, leaves the records untouched, performs no
social-application database operation, and the run still completes. -/
theorem configure_skips_invalid (k : String) (p : Provider) (apps : List SocialApp) :
    (p.client_id = none ∨ p.client_secret = none →
      configure_social_apps "django_app" [(k, p)] apps =
        ⟨apps, ["Skipping " ++ p.name ++ " - credentials not provided",
                "SocialApp configuration completed"],
         ["Site.objects.get_or_create"]⟩) ∧
    (∀ cid cs, p.client_id = some cid → p.client_secret = some cs →
      cid ∈ PLACEHOLDER_VALUES ∨ cs ∈ PLACEHOLDER_VALUES →
      configure_social_apps "django_app" [(k, p)] apps =
        ⟨apps, ["Skipping " ++ p.name ++ " - placeholder credentials detected",
                "SocialApp configuration completed"],
         ["Site.objects.get_or_create"]⟩) := by
  constructor
  · rintro (h | h)
    · simp [configure_social_apps, processProvider, h]
    · cases hc : p.client_id with
      | none => simp [configure_social_apps, processProvider, hc, h]
      | some cid => simp [configure_social_apps, processProvider, hc, h]
  · intro cid cs h1 h2 h3
    simp [configure_social_apps, processProvider, h1, h2, if_pos h3]

/-- Witness for C2: a missing client id and a placeholder pair are
both skipped with their reason lines. -/
theorem configure_skips_invalid_witness :
    configure_social_apps "django_app"
      [("google", ⟨"Google", none, some "test_client_secret"⟩)] [] =
      ⟨[], ["Skipping Google - credentials not provided",
            "SocialApp configuration completed"],
       ["Site.objects.get_or_create"]⟩ ∧
    configure_social_apps "django_app"
      [("google", ⟨"Google", some "your_google_client_id",
                   some "your_google_client_secret"⟩)] [] =
      ⟨[], ["Skipping Google - placeholder credentials detected",
            "SocialApp configuration completed"],
       ["Site.objects.get_or_create"]⟩ :=
  ⟨(configure_skips_invalid "google" ⟨"Google", none, some "test_client_secret"⟩ []).1
     (Or.inl rfl),
   (configure_skips_invalid "google"
      ⟨"Google", some "your_google_client_id", some "your_google_client_secret"⟩ []).2
     "your_google_client_id" "your_google_client_secret" rfl rfl
     (Or.inl (by decide))⟩

/-- Claim C1: with valid, non-placeholder credentials a first run
creates exactly one record keyed by the provider and prints the
created status line; a second run with changed values updates that
same record in place, saves it, and prints the updated status line,
leaving a single record rather than a duplicate. -/
theorem configure_creates_then_updates (k n1 cid1 cs1 n2 cid2 cs2 : String)
    (h1 : cid1 ∉ PLACEHOLDER_VALUES) (h2 : cs1 ∉ PLACEHOLDER_VALUES)
    (h3 : cid2 ∉ PLACEHOLDER_VALUES) (h4 : cs2 ∉ PLACEHOLDER_VALUES) :
    configure_social_apps "django_app" [(k, ⟨n1, some cid1, some cs1⟩)] [] =
      ⟨[⟨k, n1, cid1, cs1, [1]⟩],
       ["Created " ++ n1 ++ " SocialApp", "SocialApp configuration completed"],
       ["Site.objects.get_or_create", "get_or_create " ++ k, "add_site " ++ k]⟩ ∧
    configure_social_apps "django_app" [(k, ⟨n2, some cid2, some cs2⟩)]
        [⟨k, n1, cid1, cs1, [1]⟩] =
      ⟨[⟨k, n2, cid2, cs2, [1]⟩],
       ["Updated " ++ n2 ++ " SocialApp", "SocialApp configuration completed"],
       ["Site.objects.get_or_create", "get_or_create " ++ k, "save " ++ k,
        "add_site " ++ k]⟩ := by
  constructor
  · simp [configure_social_apps, processProvider, findApp, addSite, h1, h2]
  · simp [configure_social_apps, processProvider, findApp, addSite, h3, h4]

/-- Witness for C1 at the credentials the test suite uses. -/
theorem configure_creates_then_updates_witness :
    configure_social_apps "django_app"
      [("google", ⟨"Google", some "test_client_id", some "test_client_secret"⟩)] [] =
      ⟨[⟨"google", "Google", "test_client_id", "test_client_secret", [1]⟩],
       ["Created Google SocialApp", "SocialApp configuration completed"],
       ["Site.objects.get_or_create", "get_or_create google", "add_site google"]⟩ ∧
    configure_social_apps "django_app"
      [("google", ⟨"Google Updated", some "updated_client_id",
                   some "updated_client_secret"⟩)]
      [⟨"google", "Google", "test_client_id", "test_client_secret", [1]⟩] =
      ⟨[⟨"google", "Google Updated", "updated_client_id", "updated_client_secret", [1]⟩],
       ["Updated Google Updated SocialApp", "SocialApp configuration completed"],
       ["Site.objects.get_or_create", "get_or_create google", "save google",
        "add_site google"]⟩ := by
  have h := configure_creates_then_updates "google" "Google" "test_client_id"
    "test_client_secret" "Google Updated" "updated_client_id" "updated_client_secret"
    (by decide) (by decide) (by decide) (by decide)
  exact ⟨h.1, by simpa using h.2⟩

/-- Claim C10: every run for this application prints the completion
line last, and a successful create as well as a successful update
attaches the current site exactly once. -/
theorem configure_completion_and_site_attach
    (providers : List (String × Provider)) (apps : List SocialApp)
    (k : String) (p : Provider) (cid cs : String) (a : SocialApp)
    (hid : p.client_id = some cid) (hcs : p.client_secret = some cs)
    (h1 : cid ∉ PLACEHOLDER_VALUES) (h2 : cs ∉ PLACEHOLDER_VALUES)
    (ha : a.provider = k) :
    (configure_social_apps "django_app" providers apps).prints.getLast? =
      some "SocialApp configuration completed" ∧
    (configure_social_apps "django_app" [(k, p)] []).dbOps.count
      ("add_site " ++ k) = 1 ∧
    (configure_social_apps "django_app" [(k, p)] [a]).dbOps.count
      ("add_site " ++ k) = 1 := by
  refine ⟨?_, ?_, ?_⟩
  · simp [configure_social_apps]
  · simp [configure_social_apps, processProvider, findApp, addSite, hid, hcs, h1, h2,
      List.count_cons, site_op_ne_add_site, get_or_create_ne_add_site,
      save_ne_add_site]
  · simp [configure_social_apps, processProvider, findApp, addSite, hid, hcs, h1, h2,
      ha, List.count_cons, site_op_ne_add_site, get_or_create_ne_add_site,
      save_ne_add_site]

/-- Witness for C10 at the credentials the test suite uses. -/
theorem configure_completion_and_site_attach_witness :
    (configure_social_apps "django_app" [] []).prints.getLast? =
      some "SocialApp configuration completed" ∧
    (configure_social_apps "django_app"
      [("google", ⟨"Google", some "test_client_id", some "test_client_secret"⟩)]
      []).dbOps.count ("add_site " ++ "google") = 1 ∧
    (configure_social_apps "django_app"
      [("google", ⟨"Google", some "test_client_id", some "test_client_secret"⟩)]
      [⟨"google", "Old", "old_id", "old_secret", [1]⟩]).dbOps.count
      ("add_site " ++ "google") = 1 :=
  configure_completion_and_site_attach []
    [] "google" ⟨"Google", some "test_client_id", some "test_client_secret"⟩
    "test_client_id" "test_client_secret" ⟨"google", "Old", "old_id", "old_secret", [1]⟩
    rfl rfl (by decide) (by decide) rfl

/-- Claim C3: an authenticated user is greeted by first name when it
is nonempty, else by email when it is nonempty, else with the generic
greeting, and neither the login-prompt line nor the login
call-to-action appears in the document. -/
theorem home_greets_authenticated (r : HttpRequest) (u : SiteUser)
    (hu : r.user = some u) :
    (u.first_name ≠ "" → ("Hello, " ++ (u.first_name ++ "!")) ∈ (home r).body) ∧
    (u.first_name = "" → u.email ≠ "" →
      ("Hello, " ++ (u.email ++ "!")) ∈ (home r).body) ∧
    (u.first_name = "" → u.email = "" → "Hello, there!" ∈ (home r).body) ∧
    "You are not logged in" ∉ (home r).body ∧
    "Get Started with Google" ∉ (home r).body := by
  refine ⟨?_, ?_, ?_, ?_, ?_⟩
  · intro hf
    simp [home, render, renderTemplate, renderHomeTemplate, home_greeting, hu, hf]
  · intro hf he
    simp [home, render, renderTemplate, renderHomeTemplate, home_greeting, hu, hf, he]
  · intro hf he
    obtain ⟨fn, em⟩ := u
    simp only at hf he
    subst hf; subst he
    simp [home, render, renderTemplate, renderHomeTemplate, home_greeting, hu]
  · simp [home, render, renderTemplate, renderHomeTemplate, hu, not_logged_ne_hello]
  · simp [home, render, renderTemplate, renderHomeTemplate, hu, get_started_ne_hello]

/-- Witness for C3 at the three user shapes the test suite uses. -/
theorem home_greets_authenticated_witness :
    ("Hello, " ++ ("John" ++ "!")) ∈
      (home ⟨"/", some ⟨"John", "test@example.com"⟩⟩).body ∧
    ("Hello, " ++ ("test@example.com" ++ "!")) ∈
      (home ⟨"/", some ⟨"", "test@example.com"⟩⟩).body ∧
    "Hello, there!" ∈ (home ⟨"/", some ⟨"", ""⟩⟩).body ∧
    "You are not logged in" ∉ (home ⟨"/", some ⟨"John", "test@example.com"⟩⟩).body :=
  ⟨(home_greets_authenticated ⟨"/", some ⟨"John", "test@example.com"⟩⟩
      ⟨"John", "test@example.com"⟩ rfl).1 (by decide),
   (home_greets_authenticated ⟨"/", some ⟨"", "test@example.com"⟩⟩
      ⟨"", "test@example.com"⟩ rfl).2.1 rfl (by decide),
   (home_greets_authenticated ⟨"/", some ⟨"", ""⟩⟩ ⟨"", ""⟩ rfl).2.2.1 rfl rfl,
   (home_greets_authenticated ⟨"/", some ⟨"John", "test@example.com"⟩⟩
      ⟨"John", "test@example.com"⟩ rfl).2.2.2.1⟩

/-- Claim C4: a request without an authenticated session renders a
document carrying the anonymous authentication status, the
login-prompt line, and the Google login call-to-action. -/
theorem home_prompts_anonymous (r : HttpRequest) (h : r.user = none) :
    "Authentication Status: Anonymous" ∈ (home r).body ∧
    "You are not logged in" ∈ (home r).body ∧
    "Get Started with Google" ∈ (home r).body ∧
    "google_login" ∈ (home r).body := by
  simp [home, render, renderTemplate, renderHomeTemplate, h]

/-- Witness for C4 at a concrete anonymous request. -/
theorem home_prompts_anonymous_witness :
    "Authentication Status: Anonymous" ∈ (home ⟨"/", none⟩).body ∧
    "You are not logged in" ∈ (home ⟨"/", none⟩).body ∧
    "Get Started with Google" ∈ (home ⟨"/", none⟩).body ∧
    "google_login" ∈ (home ⟨"/", none⟩).body :=
  home_prompts_anonymous ⟨"/", none⟩ rfl

/-- Claim C7: the application exposes exactly one route, at the root
path, and for every request its handler returns status 200 with a
body rendered from the home.html template. -/
theorem single_route_status_ok :
    urlpatterns.length = 1 ∧
    urlpatterns.map Prod.fst = ["/"] ∧
    ∀ route ∈ urlpatterns, ∀ r : HttpRequest,
      (route.2 r).status = 200 ∧ (route.2 r).templateName = "home.html" ∧
      (route.2 r).body = renderHomeTemplate r.user := by
  refine ⟨rfl, rfl, ?_⟩
  intro route hroute r
  simp only [urlpatterns, List.mem_singleton] at hroute
  subst hroute
  exact ⟨rfl, rfl, rfl⟩

/-- Witness for C7: the root route handler on a concrete anonymous
request returns 200 from home.html. -/
theorem single_route_status_ok_witness :
    (home ⟨"/", none⟩).status = 200 ∧
    (home ⟨"/", none⟩).templateName = "home.html" ∧
    (home ⟨"/", none⟩).body = renderHomeTemplate none :=
  single_route_status_ok.2.2 ("/", home) (by simp [urlpatterns]) ⟨"/", none⟩

/-- Claim C9: the home handler itself is unconditional: it always
renders home.html with no context beyond the request, its body is
exactly the template rendered against the authenticated-user
indicator, and two requests carrying the same indicator get the same
response whatever else differs about them. -/
theorem home_handler_unconditional :
    (∀ r, home r = render r "home.html" []) ∧
    (∀ r, (home r).templateName = "home.html" ∧
      (home r).body = renderHomeTemplate r.user) ∧
    (∀ r s : HttpRequest, r.user = s.user → home r = home s) := by
  refine ⟨fun r => rfl, fun r => ⟨rfl, rfl⟩, ?_⟩
  intro r s h
  simp [home, render, renderTemplate, h]

/-- Witness for C9: two requests differing in path but carrying the
same user get the same response. -/
theorem home_handler_unconditional_witness :
    home ⟨"/", some ⟨"John", "test@example.com"⟩⟩ =
      home ⟨"/other", some ⟨"John", "test@example.com"⟩⟩ :=
  home_handler_unconditional.2.2 ⟨"/", some ⟨"John", "test@example.com"⟩⟩
    ⟨"/other", some ⟨"John", "test@example.com"⟩⟩ rfl
